import Mathlib

/-!
Verification of the override dashboard (`app.py`): a single-page form-and-submit
application that lets a user edit one designated column of a warehouse table and,
on submit, issues a soft-delete/insert SQL sequence against the source table and
an append to a companion audit/override table.

The embedding below translates the Python/pandas/Snowpark code into Lean:

* Python cell values become `PyVal` (strings, ints, `None`, float NaN, and
  timestamps carried in their `strftime` rendering); f-string interpolation of a
  value becomes `pyStr`.
* A pandas dataframe row (and a Python dict built from it) becomes a `Row`, an
  association list from column name to value, in insertion order.
* The SQL-building helper functions (`insert_into_override_table`,
  `insert_into_source_table`, `update_source_table_record_flag`) become string
  builders producing the same statement text.
* The submit handler's loop over changed rows becomes `submitStmts`, the ordered
  list of statements a single submission issues.
* Warehouse execution becomes `applyStmt` / `runStmts` over a `DB` of concrete
  table contents, with a per-statement failure oracle modelling a call raising:
  each helper catches its own exception, so a failed statement leaves the
  database unchanged and the sequence continues.
-/

namespace OverrideDashboard

/-- A Python value as it occurs in a dataframe cell or a dict built from one.
`timestamp` carries the `strftime` rendering of a `pd.Timestamp` / `datetime`. -/
inductive PyVal where
  | str (s : String)
  | int (i : Int)
  | nan
  | none
  | timestamp (t : String)
deriving DecidableEq, Repr

/-- Rendering of a value by Python string interpolation (an f-string). -/
def pyStr : PyVal → String
  | .str s => s
  | .int i => toString i
  | .nan => "nan"
  | .none => "None"
  | .timestamp t => t

/-- Elementwise pandas inequality, as used in
`edited_df[editable_column] != source_df[editable_column]`: pandas treats
both IEEE NaN and Python `None` as missing values (`checknull` in its
comparison kernel), and a comparison involving a missing value yields `True`
for `!=` — NaN and `None` each compare unequal to everything, themselves
included. Non-missing values compare structurally. -/
def pyNe (a b : PyVal) : Bool :=
  match a, b with
  | .nan, _ => true
  | _, .nan => true
  | .none, _ => true
  | _, .none => true
  | a, b => a != b

/-- Python `str.upper()` on an ASCII column name. -/
def pyUpper (s : String) : String :=
  ⟨s.data.map Char.toUpper⟩

/-- A dataframe row / Python dict: column names with values, in insertion order. -/
abbrev Row := List (String × PyVal)

/-- Dict/Series lookup `row[col]` (missing keys read as `None`; the app only
looks up columns present in the fetched dataframe). -/
def lookup (r : Row) (c : String) : PyVal :=
  match r.find? (fun p => p.1 == c) with
  | some p => p.2
  | Option.none => PyVal.none

/-- Result of a UI-level call: the returned value together with the
user-facing error messages displayed via `st.error`. -/
structure CallResult (α : Type) where
  value : α
  errors : List String
deriving DecidableEq, Repr

/-- `fetch_data`: fetch a table and uppercase its column names; on failure,
display an error message and return an empty dataframe. The warehouse call's
outcome is passed in as an `Except`. -/
def fetch_data (table_name : String) (res : Except String (List Row)) :
    CallResult (List Row) :=
  match res with
  | .ok df => ⟨df.map (fun r => r.map (fun p => (pyUpper p.1, p.2))), []⟩
  | .error e => ⟨[], ["Error fetching data from " ++ table_name ++ ": " ++ e]⟩

/-- A row of the `Override_Ref` reference table, restricted to the columns the
program reads: module number, source table, target (audit) table, editable
column. -/
structure RefRow where
  module_num : Int
  source_table : String
  target_table : String
  editable_column : String
deriving DecidableEq, Repr

/-- `fetch_override_ref_data`: filter the reference table to the selected
module's rows (`df[df['MODULE_NUM'] == module_num]`). -/
def fetch_override_ref_data (ref : List RefRow) (module_num : Int) : List RefRow :=
  ref.filter (fun r => r.module_num == module_num)

/-- The join/identity key columns used by the submit handler. In the program
this is a literal Python list (line 193 of `app.py`), not data read from the
reference table. -/
def primary_key_cols : List String :=
  ["AS_OF_DATE", "ASSET_CLASS", "SEGMENT", "STRATEGY", "PORTFOLIO",
   "UNITIZED_OWNER_IND", "HOLDING_FUND_IDS"]

/-- The per-table routing configuration the main script assembles for the
selected source table. -/
structure TableConfig where
  target_table : String
  editable_column : String
  key_columns : List String
deriving DecidableEq, Repr

/-- The main script's lookup: `table_info_df = module_tables_df[module_tables_df
['SOURCE_TABLE'] == selected_table]`, then `TARGET_TABLE` / `EDITABLE_COLUMN`
from its first row, and the hardcoded `primary_key_cols`. Returns nothing when
no reference row matches (the "No table information found" branch). -/
def configFor (module_tables : List RefRow) (selected_table : String) :
    Option TableConfig :=
  match module_tables.filter (fun r => r.source_table == selected_table) with
  | [] => Option.none
  | r :: _ => some ⟨r.target_table, r.editable_column, primary_key_cols⟩

/-- The tab-1 grid filter: `source_df[source_df['RECORD_FLAG'] == 'A']`. -/
def activeRows (df : List Row) : List Row :=
  df.filter (fun r => lookup r "RECORD_FLAG" == PyVal.str "A")

/-- A value quoted as a SQL string literal, as produced by interpolating it
between single quotes in an f-string. -/
def quoted (v : PyVal) : String :=
  "'" ++ pyStr v ++ "'"

/-- Column list of the INSERT built by `insert_into_override_table` (written
out literally in the f-string). -/
def overrideInsertColumns : List String :=
  ["AS_OF_DATE", "ASSET_CLASS", "SEGMENT", "SEGMENT_NAME", "STRATEGY",
   "STRATEGY_NAME", "PORTFOLIO", "PORTFOLIO_NAME", "HOLDING_FUND_IDS",
   "MARKET_VALUE_OLD", "MARKET_VALUE_NEW", "UNITIZED_OWNER_IND",
   "AS_AT_DATE", "RECORD_FLAG"]

/-- VALUES tuple of the INSERT built by `insert_into_override_table`: the key
and name columns of the row quoted, then `old_value` and `new_value` raw, then
`UNITIZED_OWNER_IND` raw, then `CURRENT_TIMESTAMP()` and `'O'`. -/
def overrideInsertValues (row_data : Row) (old_value new_value : PyVal) :
    List String :=
  [quoted (lookup row_data "AS_OF_DATE"),
   quoted (lookup row_data "ASSET_CLASS"),
   quoted (lookup row_data "SEGMENT"),
   quoted (lookup row_data "SEGMENT_NAME"),
   quoted (lookup row_data "STRATEGY"),
   quoted (lookup row_data "STRATEGY_NAME"),
   quoted (lookup row_data "PORTFOLIO"),
   quoted (lookup row_data "PORTFOLIO_NAME"),
   quoted (lookup row_data "HOLDING_FUND_IDS"),
   pyStr old_value,
   pyStr new_value,
   pyStr (lookup row_data "UNITIZED_OWNER_IND"),
   "CURRENT_TIMESTAMP()",
   "'O'"]

/-- The SQL text built by `insert_into_override_table` (whitespace of the
triple-quoted f-string included). -/
def insert_into_override_table_sql (target_table : String) (row_data : Row)
    (old_value new_value : PyVal) : String :=
  "\n            INSERT INTO " ++ target_table ++ " ("
    ++ String.intercalate ", " overrideInsertColumns ++ ")\n            VALUES ("
    ++ String.intercalate ", " (overrideInsertValues row_data old_value new_value)
    ++ ")\n        "

/-- `del row_data_copy[k]` guarded by `if k in row_data_copy`. -/
def delKey (d : Row) (k : String) : Row :=
  if (d.map Prod.fst).contains k then d.filter (fun p => p.1 != k) else d

/-- Python value formatting in `insert_into_source_table`: strings quoted,
`None`/NaN as NULL, numbers raw, timestamps quoted in `strftime` form. -/
def formatValue : PyVal → String
  | .str s => "'" ++ s ++ "'"
  | .none => "NULL"
  | .nan => "NULL"
  | .int i => toString i
  | .timestamp t => "'" ++ t ++ "'"

/-- The row dict after `insert_into_source_table` deletes the editable column
(uppercased), `RECORD_FLAG` and `AS_AT_DATE`. -/
def sourceInsertData (row_data : Row) (editable_column : String) : Row :=
  delKey (delKey (delKey row_data (pyUpper editable_column)) "RECORD_FLAG")
    "AS_AT_DATE"

/-- Column list of the INSERT built by `insert_into_source_table`: the
remaining row columns, then the editable column, `record_flag`, `as_at_date`. -/
def sourceInsertColumns (row_data : Row) (editable_column : String) :
    List String :=
  (sourceInsertData row_data editable_column).map Prod.fst
    ++ [editable_column, "record_flag", "as_at_date"]

/-- VALUES tuple of the INSERT built by `insert_into_source_table`: the
formatted remaining values, then the new value quoted, `'A'`, and
`CURRENT_TIMESTAMP()`. -/
def sourceInsertValues (row_data : Row) (editable_column : String)
    (new_value : PyVal) : List String :=
  (sourceInsertData row_data editable_column).map (fun p => formatValue p.2)
    ++ [quoted new_value, "'A'", "CURRENT_TIMESTAMP()"]

/-- The SQL text built by `insert_into_source_table`. -/
def insert_into_source_table_sql (source_table : String) (row_data : Row)
    (new_value : PyVal) (editable_column : String) : String :=
  "\n            INSERT INTO " ++ source_table ++ " ("
    ++ String.intercalate ", " (sourceInsertColumns row_data editable_column)
    ++ ")\n            VALUES ("
    ++ String.intercalate ", " (sourceInsertValues row_data editable_column new_value)
    ++ ")\n        "

/-- One conjunct of the WHERE clause in `update_source_table_record_flag`:
`col IS NULL` when the value `is None`, otherwise `col = '<val>'`. -/
def wherePart (col : String) (val : PyVal) : String :=
  match val with
  | .none => col ++ " IS NULL"
  | v => col ++ " = '" ++ pyStr v ++ "'"

/-- The `where_clause_parts` list of `update_source_table_record_flag`. -/
def whereParts (primary_key_values : List (String × PyVal)) : List String :=
  primary_key_values.map (fun p => wherePart p.1 p.2)

/-- `" AND ".join(where_clause_parts)`. -/
def whereClause (primary_key_values : List (String × PyVal)) : String :=
  String.intercalate " AND " (whereParts primary_key_values)

/-- The SQL text built by `update_source_table_record_flag`. -/
def update_sql (source_table : String)
    (primary_key_values : List (String × PyVal)) : String :=
  "\n            UPDATE " ++ source_table
    ++ "\n            SET record_flag = 'D',\n                as_at_date = CURRENT_TIMESTAMP()\n            WHERE "
    ++ whereClause primary_key_values ++ " AND record_flag = 'A'\n        "

/-- An SQL statement issued by a submission, tagged by the helper that builds
it and the arguments it is called with. -/
inductive Stmt where
  | overrideInsert (target_table : String) (row_data : Row)
      (old_value new_value : PyVal)
  | sourceInsert (source_table : String) (row_data : Row) (new_value : PyVal)
      (editable_column : String)
  | flagUpdate (source_table : String)
      (primary_key_values : List (String × PyVal))
deriving DecidableEq, Repr

/-- The SQL text of a statement, as the corresponding helper builds it. -/
def stmtSql : Stmt → String
  | .overrideInsert t rd ov nv => insert_into_override_table_sql t rd ov nv
  | .sourceInsert st rd nv ec => insert_into_source_table_sql st rd nv ec
  | .flagUpdate st pkv => update_sql st pkv

/-- `{col: row[col] for col in primary_key_cols}` built from the edited row. -/
def pkvOf (row : Row) : List (String × PyVal) :=
  primary_key_cols.map (fun c => (c, lookup row c))

/-- Rows of `changed_rows = edited_df[edited_df[ec] != source_df[ec]]`, paired
with their originals: the (source row, edited row) pairs, aligned by index,
whose editable-column values compare unequal under pandas `!=`. -/
def changedPairs (source edited : List Row) (editable_column : String) :
    List (Row × Row) :=
  (source.zip edited).filter
    (fun p => pyNe (lookup p.2 editable_column) (lookup p.1 editable_column))

/-- The three statements the submit loop issues for one changed row, in
program order: audit insert, source insert, flag update. `s` is the original
source row (`source_df.loc[index]`), `e` the edited row. -/
def stmtsForRow (target_table source_table editable_column : String)
    (s e : Row) : List Stmt :=
  [Stmt.overrideInsert target_table s (lookup s editable_column)
     (lookup e editable_column),
   Stmt.sourceInsert source_table s (lookup e editable_column) editable_column,
   Stmt.flagUpdate source_table (pkvOf e)]

/-- The full ordered statement list of one press of "Submit Updates". -/
def submitStmts (target_table source_table editable_column : String)
    (source edited : List Row) : List Stmt :=
  (changedPairs source edited editable_column).flatMap
    (fun p => stmtsForRow target_table source_table editable_column p.1 p.2)

/-- The status message the submit handler displays: `st.info` when
`changed_rows` is empty, `st.success` otherwise. -/
def submitMessage (editable_column : String) (source edited : List Row) :
    String :=
  if changedPairs source edited editable_column = [] then
    "No changes were made."
  else
    "👍 Data updated successfully!"

/-- Warehouse state touched by a submission: the selected source table's rows
and the audit/override table's rows (the latter kept as the appended VALUES
tuples). -/
structure DB where
  sourceRows : List Row
  overrideRows : List (List String)
deriving DecidableEq, Repr

/-- Whether a stored row satisfies one WHERE conjunct `col IS NULL` /
`col = '<val>'` of the deactivating UPDATE, interpreting the warehouse's
evaluation of the generated predicate: NULL matches only `IS NULL`, and a
literal comparison matches when the stored value renders to the same text. -/
def pkMatch (r : Row) (col : String) (val : PyVal) : Bool :=
  match val with
  | .none => lookup r col == PyVal.none
  | v => lookup r col != PyVal.none && pyStr (lookup r col) == pyStr v

/-- Overwrite one cell of a row, leaving other cells in place. -/
def setCell (r : Row) (c : String) (v : PyVal) : Row :=
  r.map (fun p => if p.1 == c then (p.1, v) else p)

/-- Effect of the deactivating UPDATE on one stored row: rows matching every
key conjunct and carrying `record_flag = 'A'` get flag `'D'` and a fresh
timestamp; all other rows are untouched. -/
def applyFlagUpdate (now : String)
    (primary_key_values : List (String × PyVal)) (r : Row) : Row :=
  if (primary_key_values.all (fun p => pkMatch r p.1 p.2))
      && (lookup r "RECORD_FLAG" == PyVal.str "A") then
    setCell (setCell r "RECORD_FLAG" (PyVal.str "D")) "AS_AT_DATE"
      (PyVal.timestamp now)
  else r

/-- The row inserted into the source table by the compensating INSERT: the
surviving columns of the old row, then the editable column with the new value,
then `RECORD_FLAG = 'A'` and a fresh `AS_AT_DATE` (unquoted identifiers are
stored uppercase by the warehouse). -/
def newSourceRow (now : String) (row_data : Row) (new_value : PyVal)
    (editable_column : String) : Row :=
  sourceInsertData row_data editable_column
    ++ [(editable_column, new_value), ("RECORD_FLAG", PyVal.str "A"),
        ("AS_AT_DATE", PyVal.timestamp now)]

/-- Warehouse execution of one successfully issued statement. -/
def applyStmt (now : String) : Stmt → DB → DB
  | .overrideInsert _ rd ov nv, db =>
      { db with overrideRows := db.overrideRows ++ [overrideInsertValues rd ov nv] }
  | .sourceInsert _ rd nv ec, db =>
      { db with sourceRows := db.sourceRows ++ [newSourceRow now rd nv ec] }
  | .flagUpdate _ pkv, db =>
      { db with sourceRows := db.sourceRows.map (applyFlagUpdate now pkv) }

/-- Execute a statement list in order from position `i`, under a failure
oracle: a statement whose warehouse call raises has no effect, its helper
catches the exception, and execution continues with the next statement — no
compensating statement is ever added. -/
def runStmtsFrom (now : String) (fails : Nat → Bool) :
    List Stmt → Nat → DB → DB
  | [], _, db => db
  | s :: rest, i, db =>
      runStmtsFrom now fails rest (i + 1)
        (if fails i then db else applyStmt now s db)

/-- Execute a whole submission's statement list. -/
def runStmts (now : String) (fails : Nat → Bool) (stmts : List Stmt)
    (db : DB) : DB :=
  runStmtsFrom now fails stmts 0 db

/-- `insert_into_override_table` at the UI level: on success the built SQL is
executed and nothing is displayed; when the call raises, no statement takes
effect and one `st.error` message is shown — the function returns normally
either way. -/
def insert_into_override_table_run (target_table : String) (row_data : Row)
    (old_value new_value : PyVal) (outcome : Except String Unit) :
    CallResult (Option String) :=
  match outcome with
  | .ok _ =>
      ⟨some (insert_into_override_table_sql target_table row_data old_value
        new_value), []⟩
  | .error e =>
      ⟨Option.none, ["Error inserting into " ++ target_table ++ ": " ++ e]⟩

/-- `insert_into_source_table` at the UI level (same catch-display-return
shape as the override insert). -/
def insert_into_source_table_run (source_table : String) (row_data : Row)
    (new_value : PyVal) (editable_column : String)
    (outcome : Except String Unit) : CallResult (Option String) :=
  match outcome with
  | .ok _ =>
      ⟨some (insert_into_source_table_sql source_table row_data new_value
        editable_column), []⟩
  | .error e =>
      ⟨Option.none, ["Error inserting into " ++ source_table ++ ": " ++ e]⟩

/-- `update_source_table_record_flag` at the UI level. -/
def update_source_table_record_flag_run (source_table : String)
    (primary_key_values : List (String × PyVal))
    (outcome : Except String Unit) : CallResult (Option String) :=
  match outcome with
  | .ok _ => ⟨some (update_sql source_table primary_key_values), []⟩
  | .error e =>
      ⟨Option.none,
       ["Error updating record flag in " ++ source_table ++ ": " ++ e]⟩

/-- A concrete active source row, used to instantiate the theorems below. -/
def sampleRow : Row :=
  [("AS_OF_DATE", PyVal.str "2025-01-31"), ("ASSET_CLASS", PyVal.str "EQ"),
   ("SEGMENT", PyVal.str "S1"), ("SEGMENT_NAME", PyVal.str "Seg One"),
   ("STRATEGY", PyVal.str "ST1"), ("STRATEGY_NAME", PyVal.str "Strat One"),
   ("PORTFOLIO", PyVal.str "P1"), ("PORTFOLIO_NAME", PyVal.str "Port One"),
   ("HOLDING_FUND_IDS", PyVal.str "F1"), ("UNITIZED_OWNER_IND", PyVal.int 1),
   ("MARKET_VALUE", PyVal.int 100), ("RECORD_FLAG", PyVal.str "A"),
   ("AS_AT_DATE", PyVal.timestamp "2025-01-01 00:00:00")]

/-- `sampleRow` after the user edits the editable column `MARKET_VALUE`. -/
def sampleEdited : Row := setCell sampleRow "MARKET_VALUE" (PyVal.int 200)

/-- `sampleRow` with NaN in the editable column (a missing market value). -/
def nanRow : Row := setCell sampleRow "MARKET_VALUE" PyVal.nan

/-- `sampleRow` with `None` in the editable column (a SQL NULL fetched into
an object-dtype column). -/
def noneRow : Row := setCell sampleRow "MARKET_VALUE" PyVal.none

/-- `sampleRow` soft-deleted: flag `'D'`. -/
def inactiveRow : Row := setCell sampleRow "RECORD_FLAG" (PyVal.str "D")

/-- Failure oracle under which the third warehouse call of a submission
raises and every other call succeeds. -/
def failsThird : Nat → Bool := fun i => i == 2

/-- The key deleted by `delKey` no longer occurs among the dict's keys. -/
theorem delKey_not_mem_self (d : Row) (k : String) :
    k ∉ (delKey d k).map Prod.fst := by
  intro hmem
  unfold delKey at hmem
  by_cases hc : (d.map Prod.fst).contains k = true
  · rw [if_pos hc] at hmem
    obtain ⟨p, hp, hpk⟩ := List.mem_map.mp hmem
    have hne := (List.mem_filter.mp hp).2
    rw [hpk] at hne
    simp at hne
  · rw [if_neg hc] at hmem
    exact hc (List.elem_iff.mpr hmem)

/-- `delKey` never introduces a key. -/
theorem delKey_not_mem_of_not_mem (d : Row) (k k' : String)
    (h : k ∉ d.map Prod.fst) : k ∉ (delKey d k').map Prod.fst := by
  intro hmem
  apply h
  unfold delKey at hmem
  by_cases hc : (d.map Prod.fst).contains k' = true
  · rw [if_pos hc] at hmem
    obtain ⟨p, hp, hpk⟩ := List.mem_map.mp hmem
    exact hpk ▸ List.mem_map_of_mem Prod.fst (List.mem_filter.mp hp).1
  · rwa [if_neg hc] at hmem

/-- C3: the INSERT generated for the source table never carries the original
row's `RECORD_FLAG` or `AS_AT_DATE` values — both are deleted from the row
dict before the column/value lists are built — and the statement instead binds
`record_flag` to `'A'` and `as_at_date` to `CURRENT_TIMESTAMP()`. -/
theorem C3_source_insert_replaces_flag_and_timestamp (row_data : Row)
    (new_value : PyVal) (editable_column : String) :
    "RECORD_FLAG" ∉ (sourceInsertData row_data editable_column).map Prod.fst ∧
    "AS_AT_DATE" ∉ (sourceInsertData row_data editable_column).map Prod.fst ∧
    ("record_flag", "'A'") ∈
      (sourceInsertColumns row_data editable_column).zip
        (sourceInsertValues row_data editable_column new_value) ∧
    ("as_at_date", "CURRENT_TIMESTAMP()") ∈
      (sourceInsertColumns row_data editable_column).zip
        (sourceInsertValues row_data editable_column new_value) := by
  have hlen : ((delKey (delKey (delKey row_data (pyUpper editable_column))
        "RECORD_FLAG") "AS_AT_DATE").map Prod.fst).length
      = ((delKey (delKey (delKey row_data (pyUpper editable_column))
        "RECORD_FLAG") "AS_AT_DATE").map (fun p => formatValue p.2)).length := by
    simp
  refine ⟨?_, ?_, ?_, ?_⟩
  · exact delKey_not_mem_of_not_mem _ _ _ (delKey_not_mem_self _ _)
  · exact delKey_not_mem_self _ _
  · unfold sourceInsertColumns sourceInsertValues sourceInsertData
    rw [List.zip_append hlen]
    apply List.mem_append_right
    simp
  · unfold sourceInsertColumns sourceInsertValues sourceInsertData
    rw [List.zip_append hlen]
    apply List.mem_append_right
    simp

/-- C3 witness: the theorem applied to the sample row and editable column. -/
theorem C3_witness :
    "RECORD_FLAG" ∉ (sourceInsertData sampleRow "MARKET_VALUE").map Prod.fst ∧
    "AS_AT_DATE" ∉ (sourceInsertData sampleRow "MARKET_VALUE").map Prod.fst ∧
    ("record_flag", "'A'") ∈
      (sourceInsertColumns sampleRow "MARKET_VALUE").zip
        (sourceInsertValues sampleRow "MARKET_VALUE" (PyVal.int 200)) ∧
    ("as_at_date", "CURRENT_TIMESTAMP()") ∈
      (sourceInsertColumns sampleRow "MARKET_VALUE").zip
        (sourceInsertValues sampleRow "MARKET_VALUE" (PyVal.int 200)) :=
  C3_source_insert_replaces_flag_and_timestamp sampleRow (PyVal.int 200)
    "MARKET_VALUE"

/-- C4: every row of the editable grid — the dataframe after the
`RECORD_FLAG == 'A'` filter — carries the active flag. -/
theorem C4_grid_rows_all_active (df : List Row) (r : Row)
    (h : r ∈ activeRows df) : lookup r "RECORD_FLAG" = PyVal.str "A" := by
  have h2 := (List.mem_filter.mp h).2
  simpa using h2

/-- C4 witness: the theorem applied to a one-row dataframe. -/
theorem C4_witness :
    sampleRow ∈ activeRows [sampleRow] ∧
    lookup sampleRow "RECORD_FLAG" = PyVal.str "A" :=
  ⟨by decide, C4_grid_rows_all_active [sampleRow] sampleRow (by decide)⟩

/-- C6: each warehouse call is wrapped in its own try/except. When the call
raises, the helper catches the exception and returns normally (each `_run`
function below is total), one `st.error` message is displayed, and the
operation proceeds no further: `fetch_data` hands back an empty dataframe and
the insert/update helpers execute no statement. -/
theorem C6_warehouse_calls_individually_wrapped
    (table_name target_table source_table : String) (row_data : Row)
    (old_value new_value : PyVal) (editable_column : String)
    (primary_key_values : List (String × PyVal)) (e : String) :
    fetch_data table_name (Except.error e) =
      ⟨[], ["Error fetching data from " ++ table_name ++ ": " ++ e]⟩ ∧
    insert_into_override_table_run target_table row_data old_value new_value
        (Except.error e) =
      ⟨Option.none, ["Error inserting into " ++ target_table ++ ": " ++ e]⟩ ∧
    insert_into_source_table_run source_table row_data new_value
        editable_column (Except.error e) =
      ⟨Option.none, ["Error inserting into " ++ source_table ++ ": " ++ e]⟩ ∧
    update_source_table_record_flag_run source_table primary_key_values
        (Except.error e) =
      ⟨Option.none,
       ["Error updating record flag in " ++ source_table ++ ": " ++ e]⟩ :=
  ⟨rfl, rfl, rfl, rfl⟩

/-- C8: in the WHERE clause of the deactivating UPDATE, a key column holding
`None` contributes `col IS NULL` — never the equality `col = 'None'` — and a
key column holding any other value contributes `col = '<val>'`. -/
theorem C8_where_clause_none_becomes_is_null
    (primary_key_values : List (String × PyVal)) (col : String) (val : PyVal)
    (h : (col, val) ∈ primary_key_values) :
    (val = PyVal.none →
      wherePart col val = col ++ " IS NULL" ∧
      wherePart col val ≠ col ++ " = 'None'" ∧
      col ++ " IS NULL" ∈ whereParts primary_key_values) ∧
    (val ≠ PyVal.none →
      wherePart col val = col ++ " = '" ++ pyStr val ++ "'" ∧
      col ++ " = '" ++ pyStr val ++ "'" ∈ whereParts primary_key_values) := by
  constructor
  · intro hv
    subst hv
    refine ⟨rfl, ?_, ?_⟩
    · intro heq
      rw [show wherePart col PyVal.none = col ++ " IS NULL" from rfl] at heq
      have hlen := congrArg String.length heq
      rw [String.length_append, String.length_append] at hlen
      have h8 : (" IS NULL" : String).length = 8 := rfl
      have h9 : (" = 'None'" : String).length = 9 := rfl
      rw [h8, h9] at hlen
      omega
    · have hm := List.mem_map_of_mem (fun p => wherePart p.1 p.2) h
      simpa [whereParts, wherePart] using hm
  · intro hv
    have hw : wherePart col val = col ++ " = '" ++ pyStr val ++ "'" := by
      cases val with
      | str s => rfl
      | int i => rfl
      | nan => rfl
      | none => exact absurd rfl hv
      | timestamp t => rfl
    refine ⟨hw, ?_⟩
    have hm := List.mem_map_of_mem (fun p => wherePart p.1 p.2) h
    rw [← hw]
    exact hm

/-- C8 witness: the theorem applied to a key dict holding a `None` column. -/
theorem C8_witness :
    (("HOLDING_FUND_IDS", PyVal.none) ∈
      [("AS_OF_DATE", PyVal.str "2025-01-31"),
       ("HOLDING_FUND_IDS", PyVal.none)]) ∧
    ((PyVal.none = PyVal.none →
      wherePart "HOLDING_FUND_IDS" PyVal.none =
        "HOLDING_FUND_IDS" ++ " IS NULL" ∧
      wherePart "HOLDING_FUND_IDS" PyVal.none ≠
        "HOLDING_FUND_IDS" ++ " = 'None'" ∧
      "HOLDING_FUND_IDS" ++ " IS NULL" ∈
        whereParts [("AS_OF_DATE", PyVal.str "2025-01-31"),
          ("HOLDING_FUND_IDS", PyVal.none)]) ∧
    (PyVal.none ≠ PyVal.none →
      wherePart "HOLDING_FUND_IDS" PyVal.none =
        "HOLDING_FUND_IDS" ++ " = '" ++ pyStr PyVal.none ++ "'" ∧
      "HOLDING_FUND_IDS" ++ " = '" ++ pyStr PyVal.none ++ "'" ∈
        whereParts [("AS_OF_DATE", PyVal.str "2025-01-31"),
          ("HOLDING_FUND_IDS", PyVal.none)])) :=
  ⟨by decide,
   C8_where_clause_none_becomes_is_null
     [("AS_OF_DATE", PyVal.str "2025-01-31"),
      ("HOLDING_FUND_IDS", PyVal.none)]
     "HOLDING_FUND_IDS" PyVal.none (by decide)⟩

/-- The UPDATE text splits as UPDATE-header, SET-clause, key predicate, and
the trailing `record_flag = 'A'` guard. -/
theorem update_sql_eq (source_table : String)
    (primary_key_values : List (String × PyVal)) :
    update_sql source_table primary_key_values =
      "\n            UPDATE " ++ source_table ++
        ("\n            SET record_flag = 'D',\n                as_at_date = CURRENT_TIMESTAMP()\n            WHERE "
          ++ (whereClause primary_key_values
            ++ " AND record_flag = 'A'\n        ")) := by
  simp [update_sql, String.append_assoc]

/-- The generated source INSERT binds the editable column to the quoted new
value, `record_flag` to `'A'` and `as_at_date` to `CURRENT_TIMESTAMP()`. -/
theorem sourceInsert_zip_facts (row_data : Row) (editable_column : String)
    (new_value : PyVal) :
    (editable_column, quoted new_value) ∈
      (sourceInsertColumns row_data editable_column).zip
        (sourceInsertValues row_data editable_column new_value) ∧
    ("record_flag", "'A'") ∈
      (sourceInsertColumns row_data editable_column).zip
        (sourceInsertValues row_data editable_column new_value) ∧
    ("as_at_date", "CURRENT_TIMESTAMP()") ∈
      (sourceInsertColumns row_data editable_column).zip
        (sourceInsertValues row_data editable_column new_value) := by
  have hlen : ((delKey (delKey (delKey row_data (pyUpper editable_column))
        "RECORD_FLAG") "AS_AT_DATE").map Prod.fst).length
      = ((delKey (delKey (delKey row_data (pyUpper editable_column))
        "RECORD_FLAG") "AS_AT_DATE").map (fun p => formatValue p.2)).length := by
    simp
  refine ⟨?_, ?_, ?_⟩ <;>
    · unfold sourceInsertColumns sourceInsertValues sourceInsertData
      rw [List.zip_append hlen]
      apply List.mem_append_right
      simp

/-- The deactivating UPDATE leaves a row alone unless its flag is `'A'`. -/
theorem applyFlagUpdate_not_active (now : String)
    (primary_key_values : List (String × PyVal)) (r : Row)
    (h : lookup r "RECORD_FLAG" ≠ PyVal.str "A") :
    applyFlagUpdate now primary_key_values r = r := by
  unfold applyFlagUpdate
  simp [beq_eq_false_iff_ne.mpr h]

/-- No single statement modifies a stored source row whose flag is not `'A'`:
the inserts only append, and the UPDATE's guard requires the active flag. -/
theorem applyStmt_preserves_inactive (now : String) (s : Stmt) (db : DB)
    (i : Nat) (r : Row) (hget : db.sourceRows[i]? = some r)
    (h : lookup r "RECORD_FLAG" ≠ PyVal.str "A") :
    (applyStmt now s db).sourceRows[i]? = some r := by
  cases s with
  | overrideInsert t rd ov nv => simpa [applyStmt] using hget
  | sourceInsert st rd nv ec =>
      have hi : i < db.sourceRows.length := (List.getElem?_eq_some.mp hget).1
      simpa [applyStmt, List.getElem?_append_left hi] using hget
  | flagUpdate st pkv =>
      simp [applyStmt, List.getElem?_map, hget,
        applyFlagUpdate_not_active now pkv r h]

/-- Running any statement sequence preserves every stored row whose flag is
not `'A'`, whatever the failure pattern. -/
theorem runStmtsFrom_preserves_inactive (now : String) (fails : Nat → Bool)
    (stmts : List Stmt) :
    ∀ (k : Nat) (db : DB) (i : Nat) (r : Row),
      db.sourceRows[i]? = some r →
      lookup r "RECORD_FLAG" ≠ PyVal.str "A" →
      (runStmtsFrom now fails stmts k db).sourceRows[i]? = some r := by
  induction stmts with
  | nil => intro k db i r hget h; simpa [runStmtsFrom] using hget
  | cons s rest ih =>
      intro k db i r hget h
      unfold runStmtsFrom
      cases hf : fails k with
      | false =>
          simp only [hf, Bool.false_eq_true, if_false]
          exact ih (k + 1) (applyStmt now s db) i r
            (applyStmt_preserves_inactive now s db i r hget h) h
      | true =>
          simp only [hf, if_true]
          exact ih (k + 1) db i r hget h

/-- C10: the deactivating UPDATE's WHERE clause ends in the conjunct
`record_flag = 'A'`, and accordingly a stored row whose flag is not `'A'`
(already `'D'` or `'O'`) is preserved, cell for cell, by every statement of
every submission, under any failure pattern. -/
theorem C10_inactive_rows_never_modified (source_table : String)
    (primary_key_values : List (String × PyVal)) (now : String)
    (fails : Nat → Bool) (stmts : List Stmt) (db : DB) (i : Nat) (r : Row)
    (hget : db.sourceRows[i]? = some r)
    (hflag : lookup r "RECORD_FLAG" ≠ PyVal.str "A") :
    (∃ pre, update_sql source_table primary_key_values =
        pre ++ " AND record_flag = 'A'\n        ") ∧
    (runStmts now fails stmts db).sourceRows[i]? = some r :=
  ⟨⟨_, rfl⟩,
   runStmtsFrom_preserves_inactive now fails stmts 0 db i r hget hflag⟩

/-- C10 witness: a soft-deleted row survives a whole submission unchanged. -/
theorem C10_witness :
    ((⟨[inactiveRow], []⟩ : DB).sourceRows[0]? = some inactiveRow) ∧
    lookup inactiveRow "RECORD_FLAG" ≠ PyVal.str "A" ∧
    ((∃ pre, update_sql "Source_T" (pkvOf sampleEdited) =
        pre ++ " AND record_flag = 'A'\n        ") ∧
     (runStmts "2025-02-01 00:00:00" failsThird
        (submitStmts "Override_T" "Source_T" "MARKET_VALUE" [sampleRow]
          [sampleEdited])
        ⟨[inactiveRow], []⟩).sourceRows[0]? = some inactiveRow) :=
  ⟨by decide, by decide,
   C10_inactive_rows_never_modified "Source_T" (pkvOf sampleEdited)
     "2025-02-01 00:00:00" failsThird
     (submitStmts "Override_T" "Source_T" "MARKET_VALUE" [sampleRow]
       [sampleEdited])
     ⟨[inactiveRow], []⟩ 0 inactiveRow (by decide) (by decide)⟩

/-- The changed sample pair: original row and its edited version. -/
def samplePair : Row × Row := (sampleRow, sampleEdited)

/-- C1: for every changed row of a submission the handler issues all three
statements of the soft-delete/insert pattern: an audit-table INSERT that
appends exactly one row carrying the row's key column values, the old value,
the new value, `CURRENT_TIMESTAMP()` and status flag `'O'`; a source-table
INSERT binding the editable column to the new value, `record_flag` to `'A'`
and `as_at_date` to a fresh `CURRENT_TIMESTAMP()`; and an UPDATE on the
source table, keyed by the row's key columns, whose SET clause marks the old
row inactive (`record_flag = 'D'`). -/
theorem C1_submission_soft_delete_insert_audit
    (target_table source_table editable_column : String)
    (source edited : List Row) (p : Row × Row)
    (hmem : p ∈ changedPairs source edited editable_column) :
    Stmt.overrideInsert target_table p.1 (lookup p.1 editable_column)
        (lookup p.2 editable_column) ∈
      submitStmts target_table source_table editable_column source edited ∧
    Stmt.sourceInsert source_table p.1 (lookup p.2 editable_column)
        editable_column ∈
      submitStmts target_table source_table editable_column source edited ∧
    Stmt.flagUpdate source_table (pkvOf p.2) ∈
      submitStmts target_table source_table editable_column source edited ∧
    (∀ now db,
      (applyStmt now (Stmt.overrideInsert target_table p.1
          (lookup p.1 editable_column) (lookup p.2 editable_column))
        db).overrideRows =
      db.overrideRows ++ [overrideInsertValues p.1
        (lookup p.1 editable_column) (lookup p.2 editable_column)]) ∧
    pyStr (lookup p.1 editable_column) ∈
      overrideInsertValues p.1 (lookup p.1 editable_column)
        (lookup p.2 editable_column) ∧
    pyStr (lookup p.2 editable_column) ∈
      overrideInsertValues p.1 (lookup p.1 editable_column)
        (lookup p.2 editable_column) ∧
    "CURRENT_TIMESTAMP()" ∈
      overrideInsertValues p.1 (lookup p.1 editable_column)
        (lookup p.2 editable_column) ∧
    "'O'" ∈
      overrideInsertValues p.1 (lookup p.1 editable_column)
        (lookup p.2 editable_column) ∧
    (∀ c, c ∈ primary_key_cols →
      quoted (lookup p.1 c) ∈
        overrideInsertValues p.1 (lookup p.1 editable_column)
          (lookup p.2 editable_column) ∨
      pyStr (lookup p.1 c) ∈
        overrideInsertValues p.1 (lookup p.1 editable_column)
          (lookup p.2 editable_column)) ∧
    (editable_column, quoted (lookup p.2 editable_column)) ∈
      (sourceInsertColumns p.1 editable_column).zip
        (sourceInsertValues p.1 editable_column
          (lookup p.2 editable_column)) ∧
    ("record_flag", "'A'") ∈
      (sourceInsertColumns p.1 editable_column).zip
        (sourceInsertValues p.1 editable_column
          (lookup p.2 editable_column)) ∧
    ("as_at_date", "CURRENT_TIMESTAMP()") ∈
      (sourceInsertColumns p.1 editable_column).zip
        (sourceInsertValues p.1 editable_column
          (lookup p.2 editable_column)) ∧
    (pkvOf p.2).map Prod.fst = primary_key_cols ∧
    (∃ w, update_sql source_table (pkvOf p.2) =
      "\n            UPDATE " ++ source_table ++
        ("\n            SET record_flag = 'D',\n                as_at_date = CURRENT_TIMESTAMP()\n            WHERE "
          ++ w)) := by
  obtain ⟨hz1, hz2, hz3⟩ := sourceInsert_zip_facts p.1 editable_column
    (lookup p.2 editable_column)
  refine ⟨?_, ?_, ?_, fun now db => rfl, ?_, ?_, ?_, ?_, ?_, hz1, hz2, hz3,
    rfl, ⟨_, update_sql_eq source_table (pkvOf p.2)⟩⟩
  · exact List.mem_flatMap.mpr ⟨p, hmem, by simp [stmtsForRow]⟩
  · exact List.mem_flatMap.mpr ⟨p, hmem, by simp [stmtsForRow]⟩
  · exact List.mem_flatMap.mpr ⟨p, hmem, by simp [stmtsForRow]⟩
  · simp [overrideInsertValues]
  · simp [overrideInsertValues]
  · simp [overrideInsertValues]
  · simp [overrideInsertValues]
  · intro c hc
    fin_cases hc
    · exact Or.inl (by simp [overrideInsertValues])
    · exact Or.inl (by simp [overrideInsertValues])
    · exact Or.inl (by simp [overrideInsertValues])
    · exact Or.inl (by simp [overrideInsertValues])
    · exact Or.inl (by simp [overrideInsertValues])
    · exact Or.inr (by simp [overrideInsertValues])
    · exact Or.inl (by simp [overrideInsertValues])

/-- C1 witness: the theorem applied to the changed sample pair. -/
theorem C1_witness :
    samplePair ∈ changedPairs [sampleRow] [sampleEdited] "MARKET_VALUE" ∧
    (Stmt.overrideInsert "Override_T" samplePair.1
        (lookup samplePair.1 "MARKET_VALUE") (lookup samplePair.2 "MARKET_VALUE") ∈
      submitStmts "Override_T" "Source_T" "MARKET_VALUE" [sampleRow] [sampleEdited] ∧
    Stmt.sourceInsert "Source_T" samplePair.1
        (lookup samplePair.2 "MARKET_VALUE") "MARKET_VALUE" ∈
      submitStmts "Override_T" "Source_T" "MARKET_VALUE" [sampleRow] [sampleEdited] ∧
    Stmt.flagUpdate "Source_T" (pkvOf samplePair.2) ∈
      submitStmts "Override_T" "Source_T" "MARKET_VALUE" [sampleRow] [sampleEdited] ∧
    (∀ now db,
      (applyStmt now (Stmt.overrideInsert "Override_T" samplePair.1
          (lookup samplePair.1 "MARKET_VALUE") (lookup samplePair.2 "MARKET_VALUE"))
        db).overrideRows =
      db.overrideRows ++ [overrideInsertValues samplePair.1
        (lookup samplePair.1 "MARKET_VALUE") (lookup samplePair.2 "MARKET_VALUE")]) ∧
    pyStr (lookup samplePair.1 "MARKET_VALUE") ∈
      overrideInsertValues samplePair.1 (lookup samplePair.1 "MARKET_VALUE")
        (lookup samplePair.2 "MARKET_VALUE") ∧
    pyStr (lookup samplePair.2 "MARKET_VALUE") ∈
      overrideInsertValues samplePair.1 (lookup samplePair.1 "MARKET_VALUE")
        (lookup samplePair.2 "MARKET_VALUE") ∧
    "CURRENT_TIMESTAMP()" ∈
      overrideInsertValues samplePair.1 (lookup samplePair.1 "MARKET_VALUE")
        (lookup samplePair.2 "MARKET_VALUE") ∧
    "'O'" ∈
      overrideInsertValues samplePair.1 (lookup samplePair.1 "MARKET_VALUE")
        (lookup samplePair.2 "MARKET_VALUE") ∧
    (∀ c, c ∈ primary_key_cols →
      quoted (lookup samplePair.1 c) ∈
        overrideInsertValues samplePair.1 (lookup samplePair.1 "MARKET_VALUE")
          (lookup samplePair.2 "MARKET_VALUE") ∨
      pyStr (lookup samplePair.1 c) ∈
        overrideInsertValues samplePair.1 (lookup samplePair.1 "MARKET_VALUE")
          (lookup samplePair.2 "MARKET_VALUE")) ∧
    ("MARKET_VALUE", quoted (lookup samplePair.2 "MARKET_VALUE")) ∈
      (sourceInsertColumns samplePair.1 "MARKET_VALUE").zip
        (sourceInsertValues samplePair.1 "MARKET_VALUE"
          (lookup samplePair.2 "MARKET_VALUE")) ∧
    ("record_flag", "'A'") ∈
      (sourceInsertColumns samplePair.1 "MARKET_VALUE").zip
        (sourceInsertValues samplePair.1 "MARKET_VALUE"
          (lookup samplePair.2 "MARKET_VALUE")) ∧
    ("as_at_date", "CURRENT_TIMESTAMP()") ∈
      (sourceInsertColumns samplePair.1 "MARKET_VALUE").zip
        (sourceInsertValues samplePair.1 "MARKET_VALUE"
          (lookup samplePair.2 "MARKET_VALUE")) ∧
    (pkvOf samplePair.2).map Prod.fst = primary_key_cols ∧
    (∃ w, update_sql "Source_T" (pkvOf samplePair.2) =
      "\n            UPDATE " ++ "Source_T" ++
        ("\n            SET record_flag = 'D',\n                as_at_date = CURRENT_TIMESTAMP()\n            WHERE "
          ++ w))) :=
  ⟨by decide,
   C1_submission_soft_delete_insert_audit "Override_T" "Source_T"
     "MARKET_VALUE" [sampleRow] [sampleEdited] samplePair (by decide)⟩

/-- C2 counterexample: for a submission with one changed row, the trace is
audit insert, then the compensating source insert, then the flag update — the
flag-update statement is issued at position 2, after the compensating insert
at position 1, not before it. -/
theorem C2_counterexample :
    submitStmts "Override_T" "Source_T" "MARKET_VALUE" [sampleRow]
        [sampleEdited] =
      [Stmt.overrideInsert "Override_T" sampleRow (PyVal.int 100)
         (PyVal.int 200),
       Stmt.sourceInsert "Source_T" sampleRow (PyVal.int 200) "MARKET_VALUE",
       Stmt.flagUpdate "Source_T" (pkvOf sampleEdited)] ∧
    (submitStmts "Override_T" "Source_T" "MARKET_VALUE" [sampleRow]
        [sampleEdited]).length = 3 ∧
    (submitStmts "Override_T" "Source_T" "MARKET_VALUE" [sampleRow]
        [sampleEdited])[1]? =
      some (Stmt.sourceInsert "Source_T" sampleRow (PyVal.int 200)
        "MARKET_VALUE") ∧
    (submitStmts "Override_T" "Source_T" "MARKET_VALUE" [sampleRow]
        [sampleEdited])[2]? =
      some (Stmt.flagUpdate "Source_T" (pkvOf sampleEdited)) := by
  decide

/-- Indexing three statements past the per-row block. -/
theorem getElem?_stmt_cons_three (a b c : Stmt) (l : List Stmt) (n : Nat) :
    (a :: b :: c :: l)[n + 3]? = l[n]? := by
  rw [show n + 3 = n + 2 + 1 from rfl, List.getElem?_cons_succ,
    show n + 2 = n + 1 + 1 from rfl, List.getElem?_cons_succ,
    List.getElem?_cons_succ]

/-- In the flattened statement list, each changed pair's source insert sits
strictly before its flag update. -/
theorem flatMap_stmts_positions (target_table source_table editable_column :
    String) :
    ∀ (l : List (Row × Row)) (p : Row × Row), p ∈ l →
      ∃ i j : Nat, i < j ∧
        (l.flatMap (fun q => stmtsForRow target_table source_table
            editable_column q.1 q.2))[i]? =
          some (Stmt.sourceInsert source_table p.1
            (lookup p.2 editable_column) editable_column) ∧
        (l.flatMap (fun q => stmtsForRow target_table source_table
            editable_column q.1 q.2))[j]? =
          some (Stmt.flagUpdate source_table (pkvOf p.2)) := by
  intro l
  induction l with
  | nil => intro p hp; exact absurd hp (List.not_mem_nil p)
  | cons q tl ih =>
      intro p hp
      have hcons : (q :: tl).flatMap (fun q => stmtsForRow target_table
          source_table editable_column q.1 q.2) =
        Stmt.overrideInsert target_table q.1 (lookup q.1 editable_column)
            (lookup q.2 editable_column) ::
          Stmt.sourceInsert source_table q.1 (lookup q.2 editable_column)
            editable_column ::
          Stmt.flagUpdate source_table (pkvOf q.2) ::
          tl.flatMap (fun q => stmtsForRow target_table source_table
            editable_column q.1 q.2) := rfl
      rcases List.mem_cons.mp hp with hq | htl
      · subst hq
        exact ⟨1, 2, by omega, by rw [hcons]; simp, by rw [hcons]; simp⟩
      · obtain ⟨i, j, hij, hi, hj⟩ := ih p htl
        refine ⟨i + 3, j + 3, by omega, ?_, ?_⟩
        · rw [hcons, getElem?_stmt_cons_three]
          exact hi
        · rw [hcons, getElem?_stmt_cons_three]
          exact hj

/-- C2 amended: for each changed row, the compensating insert of the new
source row is issued strictly before the flag-update statement — the per-row
order is audit insert, source insert, flag update (the reverse of the claimed
update-then-insert order). -/
theorem C2_amended_insert_issued_before_flag_update
    (target_table source_table editable_column : String)
    (source edited : List Row) (p : Row × Row)
    (hmem : p ∈ changedPairs source edited editable_column) :
    ∃ i j : Nat, i < j ∧
      (submitStmts target_table source_table editable_column source
          edited)[i]? =
        some (Stmt.sourceInsert source_table p.1
          (lookup p.2 editable_column) editable_column) ∧
      (submitStmts target_table source_table editable_column source
          edited)[j]? =
        some (Stmt.flagUpdate source_table (pkvOf p.2)) :=
  flatMap_stmts_positions target_table source_table editable_column
    (changedPairs source edited editable_column) p hmem

/-- C2 amended witness: the amended theorem applied to the sample pair. -/
theorem C2_amended_witness :
    samplePair ∈ changedPairs [sampleRow] [sampleEdited] "MARKET_VALUE" ∧
    (∃ i j : Nat, i < j ∧
      (submitStmts "Override_T" "Source_T" "MARKET_VALUE" [sampleRow]
          [sampleEdited])[i]? =
        some (Stmt.sourceInsert "Source_T" samplePair.1
          (lookup samplePair.2 "MARKET_VALUE") "MARKET_VALUE") ∧
      (submitStmts "Override_T" "Source_T" "MARKET_VALUE" [sampleRow]
          [sampleEdited])[j]? =
        some (Stmt.flagUpdate "Source_T" (pkvOf samplePair.2))) :=
  ⟨by decide,
   C2_amended_insert_issued_before_flag_update "Override_T" "Source_T"
     "MARKET_VALUE" [sampleRow] [sampleEdited] samplePair (by decide)⟩

/-- C5 counterexample: two reference tables that disagree on every field
still yield the same key columns — the target table and editable column of
the assembled configuration follow the reference data, but `key_columns` is
the fixed program list whatever `Override_Ref` holds (the reference table as
read by the program has no key-column field at all). -/
theorem C5_counterexample :
    configFor [⟨1, "SRC_T", "OVR_T", "MARKET_VALUE"⟩] "SRC_T" =
      some ⟨"OVR_T", "MARKET_VALUE", primary_key_cols⟩ ∧
    configFor [⟨2, "SRC_T", "OTHER_OVR", "PRICE"⟩] "SRC_T" =
      some ⟨"OTHER_OVR", "PRICE", primary_key_cols⟩ ∧
    primary_key_cols =
      ["AS_OF_DATE", "ASSET_CLASS", "SEGMENT", "STRATEGY", "PORTFOLIO",
       "UNITIZED_OWNER_IND", "HOLDING_FUND_IDS"] := by
  decide

/-- C5 amended: the target audit table and the editable column of the routing
configuration are read at runtime from the matching `Override_Ref` row, but
the join/identity key columns are the fixed list hardcoded in the program. -/
theorem C5_amended_routing_metadata_partially_from_ref
    (module_tables : List RefRow) (selected_table : String)
    (cfg : TableConfig)
    (h : configFor module_tables selected_table = some cfg) :
    (∃ r, r ∈ module_tables ∧ r.source_table = selected_table ∧
      cfg.target_table = r.target_table ∧
      cfg.editable_column = r.editable_column) ∧
    cfg.key_columns = primary_key_cols := by
  unfold configFor at h
  cases hfil : module_tables.filter (fun r => r.source_table == selected_table) with
  | nil => rw [hfil] at h; cases h
  | cons r rest =>
      rw [hfil] at h
      injection h with h2
      subst h2
      have hrmem : r ∈ module_tables.filter
          (fun r => r.source_table == selected_table) := by
        rw [hfil]
        exact List.mem_cons_self r rest
      obtain ⟨hmem2, hst⟩ := List.mem_filter.mp hrmem
      exact ⟨⟨r, hmem2, by simpa using hst, rfl, rfl⟩, rfl⟩

/-- C5 amended witness: the amended theorem applied to a one-row reference
table. -/
theorem C5_amended_witness :
    configFor [⟨1, "SRC_T", "OVR_T", "MARKET_VALUE"⟩] "SRC_T" =
      some ⟨"OVR_T", "MARKET_VALUE", primary_key_cols⟩ ∧
    ((∃ r, r ∈ [(⟨1, "SRC_T", "OVR_T", "MARKET_VALUE"⟩ : RefRow)] ∧
      r.source_table = "SRC_T" ∧
      (⟨"OVR_T", "MARKET_VALUE", primary_key_cols⟩ :
        TableConfig).target_table = r.target_table ∧
      (⟨"OVR_T", "MARKET_VALUE", primary_key_cols⟩ :
        TableConfig).editable_column = r.editable_column) ∧
    (⟨"OVR_T", "MARKET_VALUE", primary_key_cols⟩ :
      TableConfig).key_columns = primary_key_cols) :=
  ⟨by decide,
   C5_amended_routing_metadata_partially_from_ref
     [⟨1, "SRC_T", "OVR_T", "MARKET_VALUE"⟩] "SRC_T"
     ⟨"OVR_T", "MARKET_VALUE", primary_key_cols⟩ (by decide)⟩

/-- C7: the update-then-insert sequence has no atomicity. Concretely: the
submission for the changed sample row issues three statements; under the
failure pattern where the first two warehouse calls succeed and the third
(the deactivating UPDATE) raises, the audit row has been appended and the new
source row inserted, but the old row keeps `record_flag = 'A'` — the source
table is left with two active rows for the same key and no compensating
statement is issued (the executed sequence is exactly the submission's
statement list). -/
theorem C7_submission_not_atomic :
    (submitStmts "Override_T" "Source_T" "MARKET_VALUE" [sampleRow]
        [sampleEdited]).length = 3 ∧
    failsThird 0 = false ∧ failsThird 1 = false ∧ failsThird 2 = true ∧
    (runStmts "2025-02-01 00:00:00" failsThird
        (submitStmts "Override_T" "Source_T" "MARKET_VALUE" [sampleRow]
          [sampleEdited])
        ⟨[sampleRow], []⟩).overrideRows =
      [overrideInsertValues sampleRow (PyVal.int 100) (PyVal.int 200)] ∧
    (runStmts "2025-02-01 00:00:00" failsThird
        (submitStmts "Override_T" "Source_T" "MARKET_VALUE" [sampleRow]
          [sampleEdited])
        ⟨[sampleRow], []⟩).sourceRows.length = 2 ∧
    (runStmts "2025-02-01 00:00:00" failsThird
        (submitStmts "Override_T" "Source_T" "MARKET_VALUE" [sampleRow]
          [sampleEdited])
        ⟨[sampleRow], []⟩).sourceRows[0]? = some sampleRow ∧
    ((runStmts "2025-02-01 00:00:00" failsThird
        (submitStmts "Override_T" "Source_T" "MARKET_VALUE" [sampleRow]
          [sampleEdited])
        ⟨[sampleRow], []⟩).sourceRows.filter
      (fun r => lookup r "RECORD_FLAG" == PyVal.str "A")).length = 2 := by
  decide

/-- C9 counterexample: a source dataframe whose editable column holds a
missing value — NaN, or equally a `None` from a SQL NULL in an object-dtype
column — submitted completely unedited (the edited dataframe is the very
same list, so no value differs), still issues a full statement sequence and
reports success: pandas `!=` treats a missing value as unequal to itself, so
the untouched row lands in `changed_rows`. -/
theorem C9_counterexample :
    (submitStmts "Override_T" "Source_T" "MARKET_VALUE" [nanRow]
      [nanRow]).length = 3 ∧
    submitStmts "Override_T" "Source_T" "MARKET_VALUE" [nanRow] [nanRow] ≠
      [] ∧
    submitMessage "MARKET_VALUE" [nanRow] [nanRow] =
      "👍 Data updated successfully!" ∧
    (submitStmts "Override_T" "Source_T" "MARKET_VALUE" [noneRow]
      [noneRow]).length = 3 ∧
    submitStmts "Override_T" "Source_T" "MARKET_VALUE" [noneRow] [noneRow] ≠
      [] ∧
    submitMessage "MARKET_VALUE" [noneRow] [noneRow] =
      "👍 Data updated successfully!" := by
  decide

/-- C9 amended: if no edited value in the editable column differs from the
source dataframe and no value of that column is missing (neither NaN nor
`None`), pressing Submit issues no SQL statement at all — running the
(empty) statement list changes neither the source nor the audit table, and
the reference table is never written by any statement — and the user sees
the info message "No changes were made." (With a missing value in the
editable column the unedited row is treated as changed, because pandas `!=`
holds at NaN and at `None` alike.) -/
theorem C9_amended_no_difference_no_sql
    (target_table source_table editable_column : String)
    (source edited : List Row)
    (h : ∀ p, p ∈ source.zip edited →
      lookup p.2 editable_column = lookup p.1 editable_column ∧
      lookup p.1 editable_column ≠ PyVal.nan ∧
      lookup p.1 editable_column ≠ PyVal.none) :
    changedPairs source edited editable_column = [] ∧
    submitStmts target_table source_table editable_column source edited =
      [] ∧
    submitMessage editable_column source edited = "No changes were made." ∧
    (∀ now fails db,
      runStmts now fails
        (submitStmts target_table source_table editable_column source edited)
        db = db) := by
  have hcp : changedPairs source edited editable_column = [] := by
    unfold changedPairs
    rw [List.filter_eq_nil_iff]
    intro p hp
    obtain ⟨heq, hnan, hnone⟩ := h p hp
    rw [heq]
    have hfalse : pyNe (lookup p.1 editable_column)
        (lookup p.1 editable_column) = false := by
      cases hx : lookup p.1 editable_column with
      | nan => exact absurd hx hnan
      | none => exact absurd hx hnone
      | str s => simp [pyNe]
      | int i => simp [pyNe]
      | timestamp t => simp [pyNe]
    simp [hfalse]
  have hss : submitStmts target_table source_table editable_column source
      edited = [] := by
    unfold submitStmts
    rw [hcp]
    rfl
  refine ⟨hcp, hss, ?_, ?_⟩
  · unfold submitMessage
    rw [if_pos hcp]
  · intro now fails db
    rw [hss]
    rfl

/-- C9 amended witness: an unedited dataframe with no missing value in the
editable column produces no statements and the info message. -/
theorem C9_amended_witness :
    (∀ p, p ∈ ([sampleRow] : List Row).zip [sampleRow] →
      lookup p.2 "MARKET_VALUE" = lookup p.1 "MARKET_VALUE" ∧
      lookup p.1 "MARKET_VALUE" ≠ PyVal.nan ∧
      lookup p.1 "MARKET_VALUE" ≠ PyVal.none) ∧
    (changedPairs [sampleRow] [sampleRow] "MARKET_VALUE" = [] ∧
    submitStmts "Override_T" "Source_T" "MARKET_VALUE" [sampleRow]
      [sampleRow] = [] ∧
    submitMessage "MARKET_VALUE" [sampleRow] [sampleRow] =
      "No changes were made." ∧
    (∀ now fails db,
      runStmts now fails
        (submitStmts "Override_T" "Source_T" "MARKET_VALUE" [sampleRow]
          [sampleRow]) db = db)) :=
  ⟨by decide,
   C9_amended_no_difference_no_sql "Override_T" "Source_T" "MARKET_VALUE"
     [sampleRow] [sampleRow] (by decide)⟩

end OverrideDashboard
